import Mathlib

/-!
Verification development for the LiveKit voice-chat web front-end.

Shallow embedding of the three Next.js route handlers (token issuance under
src/unnamed/part_000, chat init and chat message proxies under
src/livekit-web/src/app/api/chat/) and of the VoiceSelector component state
logic (src/livekit-web/src/components/VoiceSelector.tsx).

External collaborators (the JSON parser, the LiveKit SDK signing call, the
fetch to the Python backend, the data-channel publish) are modelled as
explicit parameters: a parse result is an Except value, a signing or fetch
outcome is passed in, and publishing appends to an explicit log. React state
updates are modelled as sequential record updates, matching the semantics the
spec and its tests assume. Timers are modelled as armed flags plus explicit
firing steps.
-/

/-- One entry of the static voice catalog (interface Voice in
VoiceSelector.tsx). The gender union type is modelled as a string. -/
structure Voice where
  id : String
  name : String
  gender : String
  description : String
  provider : String
  model : String
  accent : Option String
  personality : Option String
  previewText : Option String
deriving DecidableEq, Repr

/-- Catalog entry with id luna (AVAILABLE_VOICES[0]). -/
def lunaVoice : Voice :=
  { id := "luna", name := "Luna", gender := "female",
    description := "Warm & Professional", provider := "deepgram",
    model := "aura-luna-en", accent := some "American",
    personality := some "Empathetic business consultant with warm, trustworthy tone",
    previewText := some "Hello! I\x27m Luna, your professional AI assistant. How can I help you today?" }

/-- Catalog entry with id stella. -/
def stellaVoice : Voice :=
  { id := "stella", name := "Stella", gender := "female",
    description := "Energetic & Upbeat", provider := "deepgram",
    model := "aura-stella-en", accent := some "American",
    personality := some "Enthusiastic team leader with vibrant, motivating energy",
    previewText := some "Hi there! I\x27m Stella, and I\x27m excited to assist you with lots of positive energy!" }

/-- Catalog entry with id athena. -/
def athenaVoice : Voice :=
  { id := "athena", name := "Athena", gender := "female",
    description := "Professional & Authoritative", provider := "deepgram",
    model := "aura-athena-en", accent := some "American",
    personality := some "Executive assistant with clear, authoritative delivery",
    previewText := some "Good day. I\x27m Athena, your professional business assistant. How may I assist you?" }

/-- Catalog entry with id orion. -/
def orionVoice : Voice :=
  { id := "orion", name := "Orion", gender := "male",
    description := "Deep & Confident", provider := "deepgram",
    model := "aura-orion-en", accent := some "American",
    personality := some "Senior advisor with commanding, reassuring presence",
    previewText := some "Hello. I\x27m Orion, your confident AI advisor. I\x27m here to help with any questions." }

/-- Catalog entry with id arcas. -/
def arcasVoice : Voice :=
  { id := "arcas", name := "Arcas", gender := "male",
    description := "Friendly & Casual", provider := "deepgram",
    model := "aura-arcas-en", accent := some "American",
    personality := some "Approachable colleague with relaxed, conversational style",
    previewText := some "Hey! I\x27m Arcas, your friendly AI assistant. What can I do for you today?" }

/-- The fixed five-entry catalog AVAILABLE_VOICES of VoiceSelector.tsx. -/
def AVAILABLE_VOICES : List Voice :=
  [lunaVoice, stellaVoice, athenaVoice, orionVoice, arcasVoice]

/-- A message published by the client over the reliable data channel. -/
inductive DataMsg where
  | voiceChange (voiceId : String)
  | voicePreview (voiceId : String) (previewText : String)
deriving DecidableEq, Repr

/-- A successfully parsed inbound data-channel message, keyed by its type
field the way handleDataReceived dispatches on it. -/
inductive InMsg where
  | voiceChangeResponse (success : Bool) (currentVoice : String) (message : Option String)
  | testMessage (message : String)
  | otherMsg
deriving DecidableEq, Repr

/-- The VoiceSelector component state: the useState hooks (isOpen, isChanging,
localCurrentVoice, previewingVoice), the persisted localStorage key
preferred_voice, the log of messages published over the data channel, and
flags recording whether the 5s change timer and the 4s preview timer are
armed. -/
structure SelectorState where
  isOpen : Bool
  isChanging : Bool
  localCurrentVoice : String
  previewingVoice : Option String
  preferredVoiceStorage : Option String
  published : List DataMsg
  changeTimerArmed : Bool
  previewTimerArmed : Bool
deriving DecidableEq, Repr

/-- handleDataReceived of VoiceSelector.tsx. The TextDecoder/JSON.parse of the
raw payload is external; its outcome is passed in as an Except value, and the
catch branch of the source maps a parse error to the unchanged state. -/
def handleDataReceived (parsed : Except String InMsg) (s : SelectorState) : SelectorState :=
  match parsed with
  | .error _ => s
  | .ok (.voiceChangeResponse success currentVoice _) =>
    let s1 := { s with isChanging := false }
    if success then
      { s1 with localCurrentVoice := currentVoice,
                preferredVoiceStorage := some currentVoice }
    else s1
  | .ok (.testMessage _) => s
  | .ok .otherMsg => s

/-- handleVoiceChange of VoiceSelector.tsx. isConnected is the prop,
hasLocalParticipant models the localParticipant handle being non-null, and
publishOk models whether the awaited publishData call resolves (true) or
rejects into the catch branch (false). -/
def handleVoiceChange (isConnected hasLocalParticipant publishOk : Bool)
    (voiceId : String) (s : SelectorState) : SelectorState :=
  if !isConnected || s.isChanging || voiceId == s.localCurrentVoice then s
  else
    let s1 := { s with isChanging := true, isOpen := false }
    if hasLocalParticipant then
      if publishOk then
        { s1 with published := s1.published ++ [DataMsg.voiceChange voiceId],
                  changeTimerArmed := true }
      else
        { s1 with isChanging := false }
    else s1

/-- The preview text sent for a catalog voice: voice.previewText if truthy,
else the template greeting built from the voice name. -/
def previewGreeting (v : Voice) : String :=
  match v.previewText with
  | some t => if t == "" then "Hello, I\x27m " ++ v.name ++ "." else t
  | none => "Hello, I\x27m " ++ v.name ++ "."

/-- handleVoicePreview of VoiceSelector.tsx. Mirrors the source order: guard,
set the previewing marker, look up the catalog entry, early return when the
entry or the participant handle is missing, publish, arm the 4s timer; the
catch branch clears the marker when the publish rejects. -/
def handleVoicePreview (isConnected hasLocalParticipant publishOk : Bool)
    (voiceId : String) (s : SelectorState) : SelectorState :=
  if !isConnected || s.previewingVoice.isSome then s
  else
    let s1 := { s with previewingVoice := some voiceId }
    match AVAILABLE_VOICES.find? (fun v => v.id == voiceId) with
    | none => s1
    | some voice =>
      if !hasLocalParticipant then s1
      else if publishOk then
        { s1 with published := s1.published ++ [DataMsg.voicePreview voiceId (previewGreeting voice)],
                  previewTimerArmed := true }
      else
        { s1 with previewingVoice := none }

/-- Firing of the 5-second setTimeout armed by handleVoiceChange: it calls
setIsChanging(false) unconditionally. -/
def fireChangeTimeout (s : SelectorState) : SelectorState :=
  { s with isChanging := false, changeTimerArmed := false }

/-- Firing of the 4-second setTimeout armed by handleVoicePreview: it calls
setPreviewingVoice(null) unconditionally. -/
def firePreviewTimeout (s : SelectorState) : SelectorState :=
  { s with previewingVoice := none, previewTimerArmed := false }

/-- The mount effect of VoiceSelector.tsx: read localStorage key
preferred_voice and apply it only when it is truthy and matches a catalog
entry. -/
def loadSavedVoice (savedVoice : Option String) (s : SelectorState) : SelectorState :=
  match savedVoice with
  | none => s
  | some v =>
    if v == "" then s
    else
      match AVAILABLE_VOICES.find? (fun w => w.id == v) with
      | some _ => { s with localCurrentVoice := v }
      | none => s

/-- currentVoiceData of VoiceSelector.tsx: the catalog entry whose id matches
localCurrentVoice, else AVAILABLE_VOICES[0], which is lunaVoice. -/
def currentVoiceData (localCurrentVoice : String) : Voice :=
  match AVAILABLE_VOICES.find? (fun v => v.id == localCurrentVoice) with
  | some v => v
  | none => lunaVoice

/-- The three server-side configuration values read by the token route:
process.env.NEXT_PUBLIC_LIVEKIT_URL, NEXT_PUBLIC_LIVEKIT_API_KEY,
LIVEKIT_API_SECRET. An unset variable is none. -/
structure TokenConfig where
  livekitUrl : Option String
  apiKey : Option String
  apiSecret : Option String
deriving DecidableEq, Repr

/-- JavaScript falsiness of an environment string: unset or empty. -/
def strFalsy : Option String → Bool
  | none => true
  | some s => s == ""

/-- The missing list built by the token route, pushed in source order:
url, then key, then secret. -/
def missingVars (cfg : TokenConfig) : List String :=
  (if strFalsy cfg.livekitUrl then ["NEXT_PUBLIC_LIVEKIT_URL"] else []) ++
  (if strFalsy cfg.apiKey then ["NEXT_PUBLIC_LIVEKIT_API_KEY"] else []) ++
  (if strFalsy cfg.apiSecret then ["LIVEKIT_API_SECRET"] else [])

/-- The identity computation of the token route:
participantName || user-(random suffix). JavaScript || substitutes the random
identity exactly when participantName is falsy (absent or empty string). -/
def identityOf (participantName : Option String) (suffix : String) : String :=
  match participantName with
  | none => "user-" ++ suffix
  | some n => if n == "" then "user-" ++ suffix else n

/-- The JSON body of a token-route response: the configuration-error envelope
with error, details and hint, the success body, or the generic catch-branch
error envelope. -/
inductive TokenBody where
  | configError (error : String) (details : String) (hint : String)
  | issued (accessToken : String) (url : String) (roomName : String) (identity : String)
  | genericError (error : String)
deriving DecidableEq, Repr

/-- An HTTP response of the token route: status plus JSON body. -/
structure TokenResponse where
  status : Nat
  body : TokenBody
deriving DecidableEq, Repr

namespace TokenRoute

/-- POST of the token-issuance route (src/unnamed/part_000). External pieces
are parameters: reqBody is the outcome of await request.json() projected to
its participantName field; roomSuffix and identitySuffix are the two
Math.random().toString(36).substring(7) draws; signResult is the outcome of
the AccessToken toJwt signing call. Any thrown error (body parse or signing)
reaches the catch branch, which returns the generic 500 envelope. -/
def POST (cfg : TokenConfig) (reqBody : Except String (Option String))
    (roomSuffix identitySuffix : String)
    (signResult : Except String String) : TokenResponse :=
  match reqBody with
  | .error _ => { status := 500, body := .genericError "Failed to create access token" }
  | .ok participantName =>
    let roomName := "voice-chat-" ++ roomSuffix
    let identity := identityOf participantName identitySuffix
    let missing := missingVars cfg
    if missing.length > 0 then
      { status := 500,
        body := .configError "LiveKit configuration missing"
          ("Missing environment variables: " ++ String.intercalate ", " missing)
          "Create .env.local file with required LiveKit configuration" }
    else
      match signResult with
      | .ok jwt => { status := 200, body := .issued jwt (cfg.livekitUrl.getD "") roomName identity }
      | .error _ => { status := 500, body := .genericError "Failed to create access token" }

end TokenRoute

/-- Outcome of the single response.json() call on a backend response. -/
structure BackendResponse where
  ok : Bool
  jsonBody : Except String String
deriving Repr

/-- Outcome of the single fetch to the Python backend: the promise rejects
(network error) or resolves to a response. -/
inductive FetchOutcome where
  | networkError
  | response (r : BackendResponse)
deriving Repr

/-- Body of a proxy-route response: the backend JSON passed through verbatim,
or the fixed catch-branch error message. -/
inductive ProxyBody where
  | passthrough (json : String)
  | errorMessage (msg : String)
deriving DecidableEq, Repr

/-- An HTTP response of a proxy route: status plus JSON body. -/
structure ProxyResponse where
  status : Nat
  body : ProxyBody
deriving DecidableEq, Repr

namespace ChatInitRoute

/-- POST of src/livekit-web/src/app/api/chat/init/route.ts. The route makes
exactly one fetch, whose outcome is the parameter; a non-ok status throws and
every thrown error reaches the catch branch returning the fixed 500 body. -/
def POST (outcome : FetchOutcome) : ProxyResponse :=
  match outcome with
  | .networkError => { status := 500, body := .errorMessage "Failed to initialize chat" }
  | .response r =>
    if r.ok then
      match r.jsonBody with
      | .ok data => { status := 200, body := .passthrough data }
      | .error _ => { status := 500, body := .errorMessage "Failed to initialize chat" }
    else { status := 500, body := .errorMessage "Failed to initialize chat" }

end ChatInitRoute

namespace ChatMessageRoute

/-- POST of src/livekit-web/src/app/api/chat/message/route.ts. reqBody is the
outcome of await request.json() projected to (message, sessionId); the fetch
forwards them and its outcome is the second parameter. All thrown errors
reach the catch branch returning the fixed 500 body. -/
def POST (reqBody : Except String (String × String)) (outcome : FetchOutcome) : ProxyResponse :=
  match reqBody with
  | .error _ => { status := 500, body := .errorMessage "Failed to send message" }
  | .ok _ =>
    match outcome with
    | .networkError => { status := 500, body := .errorMessage "Failed to send message" }
    | .response r =>
      if r.ok then
        match r.jsonBody with
        | .ok data => { status := 200, body := .passthrough data }
        | .error _ => { status := 500, body := .errorMessage "Failed to send message" }
      else { status := 500, body := .errorMessage "Failed to send message" }

end ChatMessageRoute

/-- A convenient concrete component state used to instantiate theorem
hypotheses: dropdown closed, no change in flight, Luna selected, nothing
persisted, nothing published, no timers armed. -/
def idleState : SelectorState :=
  { isOpen := false, isChanging := false, localCurrentVoice := "luna",
    previewingVoice := none, preferredVoiceStorage := none, published := [],
    changeTimerArmed := false, previewTimerArmed := false }

/-- Helper: a preview request is a no-op while the previewing marker is set. -/
theorem handleVoicePreview_busy (c p pk : Bool) (v : String) (s : SelectorState)
    (h : s.previewingVoice.isSome = true) : handleVoicePreview c p pk v s = s := by
  unfold handleVoicePreview
  simp [h]

/-- Helper: a voice-change request is a no-op while isChanging is set. -/
theorem handleVoiceChange_busy (c p pk : Bool) (v : String) (s : SelectorState)
    (h : s.isChanging = true) : handleVoiceChange c p pk v s = s := by
  unfold handleVoiceChange
  simp [h]

/-- Claim C7: an inbound data-channel payload whose decode/parse fails is
caught by the handler (the catch branch of handleDataReceived), so the
handler is total there and returns the state unchanged: current voice and
the persisted preference are untouched. -/
theorem handleDataReceived_parseError_noChange :
    ∀ (s : SelectorState) (err : String), handleDataReceived (.error err) s = s := by
  intro s err
  rfl

/-- Claim C4: a voice_change_response with success true sets the displayed
current voice to the message value, persists it under the preference key and
clears the in-flight flag; with success false both the displayed voice and
the persisted preference are unchanged; and the preference key is written
only by a successful voice_change_response. -/
theorem handleDataReceived_voiceChangeResponse_spec :
    (∀ (s : SelectorState) (cv : String) (m : Option String),
      (handleDataReceived (.ok (.voiceChangeResponse true cv m)) s).localCurrentVoice = cv ∧
      (handleDataReceived (.ok (.voiceChangeResponse true cv m)) s).preferredVoiceStorage = some cv ∧
      (handleDataReceived (.ok (.voiceChangeResponse true cv m)) s).isChanging = false) ∧
    (∀ (s : SelectorState) (cv : String) (m : Option String),
      (handleDataReceived (.ok (.voiceChangeResponse false cv m)) s).localCurrentVoice =
        s.localCurrentVoice ∧
      (handleDataReceived (.ok (.voiceChangeResponse false cv m)) s).preferredVoiceStorage =
        s.preferredVoiceStorage) ∧
    (∀ (p : Except String InMsg) (s : SelectorState),
      (handleDataReceived p s).preferredVoiceStorage = s.preferredVoiceStorage ∨
      ∃ cv m, p = .ok (.voiceChangeResponse true cv m) ∧
        (handleDataReceived p s).preferredVoiceStorage = some cv) := by
  refine ⟨fun s cv m => ⟨rfl, rfl, rfl⟩, fun s cv m => ⟨rfl, rfl⟩, ?_⟩
  intro p s
  match p with
  | .error e => exact .inl rfl
  | .ok (.voiceChangeResponse b cv m) =>
    cases b
    · exact .inl rfl
    · exact .inr ⟨cv, m, rfl, rfl⟩
  | .ok (.testMessage m) => exact .inl rfl
  | .ok .otherMsg => exact .inl rfl

/-- Claim C9: the displayed voice record is always a catalog entry: for any
selected identifier currentVoiceData is a member of AVAILABLE_VOICES; when no
catalog entry matches, the first entry (Luna) is displayed; and the persisted
preference read at mount is applied only when it matches a catalog entry. -/
theorem currentVoiceData_in_catalog :
    (∀ id : String, currentVoiceData id ∈ AVAILABLE_VOICES) ∧
    (∀ id : String, AVAILABLE_VOICES.find? (fun v => v.id == id) = none →
      currentVoiceData id = lunaVoice) ∧
    (∀ (sv : String) (s : SelectorState),
      AVAILABLE_VOICES.find? (fun w => w.id == sv) = none →
      loadSavedVoice (some sv) s = s) := by
  refine ⟨?_, ?_, ?_⟩
  · intro id
    unfold currentVoiceData
    cases h : AVAILABLE_VOICES.find? (fun v => v.id == id) with
    | none => simp [AVAILABLE_VOICES]
    | some v => exact List.mem_of_find?_eq_some h
  · intro id h
    unfold currentVoiceData
    rw [h]
  · intro sv s h
    unfold loadSavedVoice
    cases hb : (sv == "") with
    | true => simp [hb]
    | false => simp [hb, h]

/-- Witness for C9 at a concrete non-catalog identifier. -/
theorem currentVoiceData_in_catalog_witness :
    currentVoiceData "unknown" = lunaVoice :=
  currentVoiceData_in_catalog.2.1 "unknown" (by decide)

/-- Claim C5: a voice-change request is a no-op (the state is returned
unchanged, so nothing is published) when a change is in flight, or the
target equals the current voice, or the client is not connected; and after
one successful request (publish count up by one) a second immediate request
is a no-op, leaving the publish count at its value after the first. -/
theorem handleVoiceChange_guard_noop :
    (∀ (c p pk : Bool) (v : String) (s : SelectorState),
      s.isChanging = true ∨ v = s.localCurrentVoice ∨ c = false →
      handleVoiceChange c p pk v s = s) ∧
    (∀ (p pk : Bool) (v v2 : String) (s : SelectorState),
      s.isChanging = false → v ≠ s.localCurrentVoice →
      (handleVoiceChange true true true v s).published.length = s.published.length + 1 ∧
      handleVoiceChange true p pk v2 (handleVoiceChange true true true v s) =
        handleVoiceChange true true true v s) := by
  constructor
  · intro c p pk v s h
    unfold handleVoiceChange
    rcases h with h | h | h
    · simp [h]
    · simp [h]
    · simp [h]
  · intro p pk v v2 s h1 h2
    have hfirst : handleVoiceChange true true true v s =
        { s with isChanging := true, isOpen := false,
                 published := s.published ++ [DataMsg.voiceChange v],
                 changeTimerArmed := true } := by
      unfold handleVoiceChange
      simp [h1, h2]
    refine ⟨by rw [hfirst]; simp, ?_⟩
    apply handleVoiceChange_busy
    rw [hfirst]

/-- Witness for C5: from the idle state, the first request to switch to
stella publishes once and a second immediate request changes nothing. -/
theorem handleVoiceChange_guard_noop_witness :
    (handleVoiceChange true true true "stella" idleState).published.length =
      idleState.published.length + 1 ∧
    handleVoiceChange true true true "athena" (handleVoiceChange true true true "stella" idleState) =
      handleVoiceChange true true true "stella" idleState :=
  handleVoiceChange_guard_noop.2 true true "stella" "athena" idleState rfl (by decide)

/-- Claim C6: a successful voice-change request arms the 5-second timer and
sets the busy flag; firing that timer clears the busy flag unconditionally
while leaving the displayed voice, the persisted preference and the published
request log untouched (the request itself is not cancelled); and a success
response arriving after the flag has already cleared still updates and
persists the current voice. All steps are total functions, so no step
throws. -/
theorem voiceChange_timeout_spec :
    (∀ (v : String) (s : SelectorState),
      s.isChanging = false → v ≠ s.localCurrentVoice →
      (handleVoiceChange true true true v s).changeTimerArmed = true ∧
      (handleVoiceChange true true true v s).isChanging = true) ∧
    (∀ s : SelectorState,
      (fireChangeTimeout s).isChanging = false ∧
      (fireChangeTimeout s).localCurrentVoice = s.localCurrentVoice ∧
      (fireChangeTimeout s).preferredVoiceStorage = s.preferredVoiceStorage ∧
      (fireChangeTimeout s).published = s.published) ∧
    (∀ (s : SelectorState) (cv : String) (m : Option String),
      s.isChanging = false →
      (handleDataReceived (.ok (.voiceChangeResponse true cv m)) s).localCurrentVoice = cv ∧
      (handleDataReceived (.ok (.voiceChangeResponse true cv m)) s).preferredVoiceStorage =
        some cv) := by
  refine ⟨?_, fun s => ⟨rfl, rfl, rfl, rfl⟩, fun s cv m _ => ⟨rfl, rfl⟩⟩
  intro v s h1 h2
  unfold handleVoiceChange
  simp [h1, h2]

/-- Witness for C6: the request from the idle state arms the timer; firing
the timer on the resulting state clears the busy flag; a late stella success
response on the fired state updates the voice. -/
theorem voiceChange_timeout_witness :
    (handleVoiceChange true true true "stella" idleState).changeTimerArmed = true ∧
    (fireChangeTimeout (handleVoiceChange true true true "stella" idleState)).isChanging = false ∧
    (handleDataReceived (.ok (.voiceChangeResponse true "stella" none))
      (fireChangeTimeout (handleVoiceChange true true true "stella" idleState))).localCurrentVoice =
      "stella" :=
  ⟨(voiceChange_timeout_spec.1 "stella" idleState rfl (by decide)).1,
   (voiceChange_timeout_spec.2.1 (handleVoiceChange true true true "stella" idleState)).1,
   (voiceChange_timeout_spec.2.2
     (fireChangeTimeout (handleVoiceChange true true true "stella" idleState)) "stella" none
     rfl).1⟩

/-- Claim C10: while the previewing marker is set every preview request is a
no-op; and a preview started while connected with the marker clear, whose
voiceId matches no catalog entry or whose participant handle is unavailable,
sets the marker, publishes nothing and arms no clearing timer, after which
every subsequent preview request is a no-op (the marker is never cleared by
this path). -/
theorem voicePreview_inflight_spec :
    (∀ (c p pk : Bool) (v : String) (s : SelectorState),
      s.previewingVoice.isSome = true → handleVoicePreview c p pk v s = s) ∧
    (∀ (p pk : Bool) (v : String) (s : SelectorState),
      s.previewingVoice = none →
      (AVAILABLE_VOICES.find? (fun w => w.id == v) = none ∨ p = false) →
      (handleVoicePreview true p pk v s).previewingVoice = some v ∧
      (handleVoicePreview true p pk v s).published = s.published ∧
      (handleVoicePreview true p pk v s).previewTimerArmed = s.previewTimerArmed ∧
      (∀ (c2 p2 pk2 : Bool) (v2 : String),
        handleVoicePreview c2 p2 pk2 v2 (handleVoicePreview true p pk v s) =
          handleVoicePreview true p pk v s)) := by
  refine ⟨handleVoicePreview_busy, ?_⟩
  intro p pk v s h1 h2
  have hres : handleVoicePreview true p pk v s = { s with previewingVoice := some v } := by
    unfold handleVoicePreview
    rcases h2 with h2 | h2
    · simp [h1, h2]
    · cases hf : AVAILABLE_VOICES.find? (fun w => w.id == v) with
      | none => simp [h1, hf]
      | some voice => simp [h1, h2, hf]
  refine ⟨by rw [hres], by rw [hres], by rw [hres], ?_⟩
  intro c2 p2 pk2 v2
  apply handleVoicePreview_busy
  rw [hres]
  rfl

/-- Witness for C10: from the idle state, a preview of stella with the
participant handle unavailable sets the marker, publishes nothing, arms no
timer, and a later preview of luna is a no-op. -/
theorem voicePreview_inflight_witness :
    (handleVoicePreview true false true "stella" idleState).previewingVoice = some "stella" ∧
    (handleVoicePreview true false true "stella" idleState).published = idleState.published ∧
    (handleVoicePreview true false true "stella" idleState).previewTimerArmed =
      idleState.previewTimerArmed ∧
    handleVoicePreview true true true "luna" (handleVoicePreview true false true "stella" idleState) =
      handleVoicePreview true false true "stella" idleState :=
  have h := voicePreview_inflight_spec.2 false true "stella" idleState rfl (Or.inr rfl)
  ⟨h.1, h.2.1, h.2.2.1, h.2.2.2 true true true "luna"⟩

/-- Claim C1: with any configuration value falsy (unset or empty) and a
parseable request body, the token route answers 500; its details field is
the fixed sentence followed by exactly the missing variable names joined in
checked order (url, key, secret), as characterized by the membership
equivalence; and the response does not depend on the signing outcome, so the
signing call is never consulted. -/
theorem tokenPOST_missingConfig_spec :
    ∀ (cfg : TokenConfig) (pn : Option String) (rs isuf : String)
      (sr sr2 : Except String String),
      missingVars cfg ≠ [] →
      (TokenRoute.POST cfg (.ok pn) rs isuf sr).status = 500 ∧
      (TokenRoute.POST cfg (.ok pn) rs isuf sr).body =
        TokenBody.configError "LiveKit configuration missing"
          ("Missing environment variables: " ++ String.intercalate ", " (missingVars cfg))
          "Create .env.local file with required LiveKit configuration" ∧
      TokenRoute.POST cfg (.ok pn) rs isuf sr = TokenRoute.POST cfg (.ok pn) rs isuf sr2 ∧
      (∀ nm : String, nm ∈ missingVars cfg ↔
        ((nm = "NEXT_PUBLIC_LIVEKIT_URL" ∧ strFalsy cfg.livekitUrl = true) ∨
         (nm = "NEXT_PUBLIC_LIVEKIT_API_KEY" ∧ strFalsy cfg.apiKey = true) ∨
         (nm = "LIVEKIT_API_SECRET" ∧ strFalsy cfg.apiSecret = true))) := by
  intro cfg pn rs isuf sr sr2 h
  have hlen : (missingVars cfg).length > 0 := List.length_pos.mpr h
  refine ⟨?_, ?_, ?_, ?_⟩
  · simp [TokenRoute.POST, hlen]
  · simp [TokenRoute.POST, hlen]
  · simp [TokenRoute.POST, hlen]
  · intro nm
    unfold missingVars
    cases hu : strFalsy cfg.livekitUrl <;> cases hk : strFalsy cfg.apiKey <;>
      cases hs : strFalsy cfg.apiSecret <;> simp

/-- Witness for C1: with only the url unset, the route answers 500 naming
exactly that variable, independently of the signing outcome. -/
theorem tokenPOST_missingConfig_witness :
    (TokenRoute.POST ⟨none, some "key", some "secret"⟩ (.ok (some "Ava")) "r" "i"
      (.ok "jwt")).status = 500 ∧
    (TokenRoute.POST ⟨none, some "key", some "secret"⟩ (.ok (some "Ava")) "r" "i"
      (.ok "jwt")).body =
      TokenBody.configError "LiveKit configuration missing"
        ("Missing environment variables: " ++ String.intercalate ", "
          (missingVars ⟨none, some "key", some "secret"⟩))
        "Create .env.local file with required LiveKit configuration" :=
  have h := tokenPOST_missingConfig_spec ⟨none, some "key", some "secret"⟩ (some "Ava") "r" "i"
    (.ok "jwt") (.error "boom") (by decide)
  ⟨h.1, h.2.1⟩

/-- Claim C2: with all three configuration values truthy and the signing call
succeeding with a (non-empty) JWT, the token route answers 200 and its body
carries that accessToken, the configured endpoint URL, a roomName equal to
the fixed prefix voice-chat- followed by the random suffix, and the computed
participant identity. -/
theorem tokenPOST_success_spec :
    ∀ (url key secret : String) (pn : Option String) (rs isuf jwt : String),
      url ≠ "" → key ≠ "" → secret ≠ "" → jwt ≠ "" →
      (TokenRoute.POST ⟨some url, some key, some secret⟩ (.ok pn) rs isuf (.ok jwt)).status =
        200 ∧
      (TokenRoute.POST ⟨some url, some key, some secret⟩ (.ok pn) rs isuf (.ok jwt)).body =
        TokenBody.issued jwt url ("voice-chat-" ++ rs) (identityOf pn isuf) ∧
      jwt ≠ "" := by
  intro url key secret pn rs isuf jwt hu hk hs hj
  have hmv : missingVars ⟨some url, some key, some secret⟩ = [] := by
    simp [missingVars, strFalsy, hu, hk, hs]
  refine ⟨?_, ?_, hj⟩ <;> simp [TokenRoute.POST, hmv]

/-- Witness for C2 at a fully concrete configuration and request. -/
theorem tokenPOST_success_witness :
    (TokenRoute.POST ⟨some "wss://x", some "k", some "s"⟩ (.ok (some "Ava")) "abc123" "i1"
      (.ok "t1")).status = 200 ∧
    (TokenRoute.POST ⟨some "wss://x", some "k", some "s"⟩ (.ok (some "Ava")) "abc123" "i1"
      (.ok "t1")).body =
      TokenBody.issued "t1" "wss://x" ("voice-chat-" ++ "abc123") (identityOf (some "Ava") "i1") :=
  have h := tokenPOST_success_spec "wss://x" "k" "s" (some "Ava") "abc123" "i1" "t1"
    (by decide) (by decide) (by decide) (by decide)
  ⟨h.1, h.2.1⟩

/-- Counterexample to claim C3 as stated: a whitespace-only participantName
is truthy in JavaScript, so the route uses it verbatim instead of
substituting a random user- identity. -/
theorem identity_blank_counterexample :
    (TokenRoute.POST ⟨some "wss://x", some "k", some "s"⟩ (.ok (some " ")) "r1" "i1"
      (.ok "t1")).body = TokenBody.issued "t1" "wss://x" "voice-chat-r1" " " ∧
    (" ".startsWith "user-") = false := by
  exact ⟨rfl, by decide⟩

/-- Claim C3 amended: the random user- identity is substituted exactly when
participantName is absent or the empty string; any other string, including a
whitespace-only one, is used verbatim as the identity; and on the success
path the route returns exactly this computed identity. -/
theorem identity_substitution_spec :
    (∀ sfx : String, identityOf none sfx = "user-" ++ sfx) ∧
    (∀ sfx : String, identityOf (some "") sfx = "user-" ++ sfx) ∧
    (∀ (sfx n : String), n ≠ "" → identityOf (some n) sfx = n) ∧
    (∀ (cfg : TokenConfig) (pn : Option String) (rs isuf jwt : String),
      missingVars cfg = [] →
      (TokenRoute.POST cfg (.ok pn) rs isuf (.ok jwt)).body =
        TokenBody.issued jwt (cfg.livekitUrl.getD "") ("voice-chat-" ++ rs)
          (identityOf pn isuf)) := by
  refine ⟨fun sfx => rfl, fun sfx => rfl, ?_, ?_⟩
  · intro sfx n h
    simp [identityOf, h]
  · intro cfg pn rs isuf jwt h
    simp [TokenRoute.POST, h]

/-- Witness for the amended C3: the non-empty name Ava is used verbatim and a
whitespace-only name is used verbatim too. -/
theorem identity_substitution_witness :
    identityOf (some "Ava") "abc" = "Ava" ∧ identityOf (some " ") "abc" = " " :=
  ⟨identity_substitution_spec.2.2.1 "abc" "Ava" (by decide),
   identity_substitution_spec.2.2.1 "abc" " " (by decide)⟩

/-- Claim C8: each proxy operation returns the backend JSON body verbatim
with status 200 when the backend responds ok with a parseable body, and the
fixed per-operation 500 error envelope on a network error or a non-success
backend status, whatever the backend body was; each function consumes a
single fetch outcome, so no retry or caching exists. -/
theorem proxyRoutes_passthrough_spec :
    (∀ j : String,
      ChatInitRoute.POST (.response ⟨true, .ok j⟩) = ⟨200, .passthrough j⟩) ∧
    (ChatInitRoute.POST .networkError = ⟨500, .errorMessage "Failed to initialize chat"⟩) ∧
    (∀ jb : Except String String,
      ChatInitRoute.POST (.response ⟨false, jb⟩) =
        ⟨500, .errorMessage "Failed to initialize chat"⟩) ∧
    (∀ (msg sid j : String),
      ChatMessageRoute.POST (.ok (msg, sid)) (.response ⟨true, .ok j⟩) =
        ⟨200, .passthrough j⟩) ∧
    (∀ (msg sid : String),
      ChatMessageRoute.POST (.ok (msg, sid)) .networkError =
        ⟨500, .errorMessage "Failed to send message"⟩) ∧
    (∀ (msg sid : String) (jb : Except String String),
      ChatMessageRoute.POST (.ok (msg, sid)) (.response ⟨false, jb⟩) =
        ⟨500, .errorMessage "Failed to send message"⟩) :=
  ⟨fun _ => rfl, rfl, fun _ => rfl, fun _ _ _ => rfl, fun _ _ => rfl, fun _ _ _ => rfl⟩
